import Mathlib

/-!
A verification development for the `exploralytics` plotting-helper library.

The Python sources are shallowly embedded below: pure helper functions become
Lean functions, Python `int` arithmetic becomes `Int` with floor
division/modulus (`Int.fdiv` / `Int.fmod`, which match Python `//` and `%`),
fallible code returns `Except`, and Python `None`-able parameters become
`Option`.
-/

namespace Exploralytics

/-- Error kinds raised by the library (spec §7), plus the raw Python
`ZeroDivisionError` that integer division by zero raises. -/
inductive VizError where
  | EmptyDataset
  | NoNumericColumns
  | InvalidArgument
  | ZeroDivisionError
deriving DecidableEq, Repr

/-- Embedding of `identify_num_rows` (src/experimental/utils.py, lines 3-32).

```python
if (len(columns) % desired_num_col) == 0:
    num_rows = len(columns) // desired_num_col
else:
    num_rows = (len(columns) // desired_num_col) + 1
return num_rows
```

Python `%` and `//` are floor modulus/division, i.e. `Int.fmod` and
`Int.fdiv`; `len(columns) % 0` raises `ZeroDivisionError`. -/
def identify_num_rows (columns : List String) (desired_num_col : Int) :
    Except VizError Int :=
  if desired_num_col = 0 then
    .error .ZeroDivisionError
  else if Int.fmod (columns.length : Int) desired_num_col = 0 then
    .ok (Int.fdiv (columns.length : Int) desired_num_col)
  else
    .ok (Int.fdiv (columns.length : Int) desired_num_col + 1)

/-- Embedding of `highlight_bars_colors` (src/experimental/utils.py, lines
35-70).

```python
colors = ['#E5E4E2'] * data_length
if highlight_top_n:
    n, color = highlight_top_n
    colors[:n] = [color] * min(n, data_length)
if highlight_low_n:
    n, color = highlight_low_n
    colors[-n:] = [color] * min(n, data_length)
return colors
```

`None` becomes `none`; a present `(n, color)` tuple is truthy in Python even
when `n = 0`. Python slice assignment `xs[:n] = repl` yields
`repl ++ xs.drop n`; for `n ≥ 1`, `xs[-n:] = repl` yields
`xs.take (xs.length - n) ++ repl`, while for `n = 0` the slice `xs[-0:]` is
`xs[0:]`, the whole list, so the result is just `repl`. Counts are taken as
`Nat` (the claims under verification only concern `n ≥ 0`). -/
def highlight_bars_colors (highlight_top_n : Option (Nat × String))
    (highlight_low_n : Option (Nat × String)) (data_length : Nat) :
    List String :=
  let colors := List.replicate data_length "#E5E4E2"
  let colors :=
    match highlight_top_n with
    | none => colors
    | some (n, color) =>
        List.replicate (min n data_length) color ++ colors.drop n
  let colors :=
    match highlight_low_n with
    | none => colors
    | some (n, color) =>
        if n = 0 then
          List.replicate (min n data_length) color
        else
          colors.take (colors.length - n) ++
            List.replicate (min n data_length) color
  colors

/-! ### Spec-side color assignment (C2)

The spec's `assign_colors` contract (§4.2), written from the SPEC's words so
that `highlight_bars_colors` can be compared against it: every slot starts as
the base color, slots `[0, min(n, length))` take the top color, and slots
`[length - n, length)` (start clamped at 0) take the low color, applied top
first then low (last-write-wins, §3 HighlightSpec). -/

/-- The color the spec assigns to slot `i` before the low highlight: the top
color on `[0, min n len)`, the base color elsewhere. -/
def top_color_spec (base : String) (highlight_top : Option (Nat × String))
    (len i : Nat) : String :=
  match highlight_top with
  | some (n, c) => if i < min n len then c else base
  | none => base

/-- The color the spec assigns to slot `i`: the low color on
`[len - n, len)` (Nat subtraction clamps the start at 0), otherwise whatever
the top pass left. -/
def assign_colors_spec (base : String)
    (highlight_top highlight_low : Option (Nat × String)) (len i : Nat) :
    String :=
  match highlight_low with
  | some (n, c) => if len - n ≤ i then c else top_color_spec base highlight_top len i
  | none => top_color_spec base highlight_top len i

/-! ### Correlation heatmap (C6)

`Visualizer.plot_correlation_map` (src/experimental/visualizer.py, lines
144-231) computes `corr = df.corr().round(2)`, masks the upper triangle
including the diagonal (`np.triu`), and builds per-cell hover text.  The
correlation computation itself is done by pandas (an external collaborator);
we take its output as input: a square matrix of `Option Int` entries, where
`some c` stands for the value `c / 100` already rounded to two decimals by
`.round(2)`, and `none` stands for a `NaN` entry. -/

/-- Python `f"{val:.2f}"` applied to a two-decimal value represented in
hundredths: `fmt2 100 = "1.00"`, `fmt2 (-50) = "-0.50"`, `fmt2 7 = "0.07"`. -/
def fmt2 (c : Int) : String :=
  let sign := if c < 0 then "-" else ""
  let a := c.natAbs
  let frac := a % 100
  sign ++ toString (a / 100) ++ "." ++
    (if frac < 10 then "0" ++ toString frac else toString frac)

/-- `df_mask = corr.mask(np.triu(np.ones_like(corr, dtype=bool)))`
(src/experimental/visualizer.py, lines 175-178): entry `(i, j)` is set to
`NaN` (`none`) whenever `j ≥ i` (upper triangle including the diagonal). -/
def mask_upper (m : List (List (Option Int))) : List (List (Option Int)) :=
  m.enum.map fun p =>
    p.2.enum.map fun q => if p.1 ≤ q.1 then none else q.2

/-- The hover-text comprehension (src/experimental/visualizer.py, lines
181-184):

```python
hovertext = [[f"{col1} vs {col2}<br>Correlation: {val:.2f}"
              if not pd.isna(val) else ""
              for col2, val in zip(df_mask.columns, row)]
            for col1, row in zip(df_mask.index, df_mask.values)]
```

`names` plays the role of both `df_mask.index` and `df_mask.columns` (the
correlation matrix is square with identical row/column labels). -/
def heatmap_hovertext (names : List String) (m : List (List (Option Int))) :
    List (List String) :=
  (names.zip (mask_upper m)).map fun r =>
    (names.zip r.2).map fun c =>
      match c.2 with
      | none => ""
      | some v => r.1 ++ " vs " ++ c.1 ++ "<br>Correlation: " ++ fmt2 v

/-! ### Target-correlation bars (C7)

`Visualizer.plot_correlation_with_target` (src/experimental/visualizer.py,
lines 233-309):

```python
correlations = df.corr()[target_column].sort_values()
correlations = correlations.drop(target_column)
colors = ['#FF9999' if c < 0 else '#2E75B6' for c in correlations]
...
go.Bar(y=correlations.index, x=correlations.values, ..., marker_color=colors)
```

`df.corr()[target_column]` is pandas output (external collaborator): a series
of `(column name, correlation value)` pairs, one per numeric column of the
dataframe, the target itself included.  Values are again in hundredths.
`sort_values()` sorts ascending by value and `drop(target_column)` removes the
rows labelled with the target. -/

/-- Bar labels (`correlations.index`), bar values (`correlations.values`) and
bar colors after sort/drop/color-assignment. -/
def plot_correlation_with_target (target_column : String)
    (corr_series : List (String × Int)) :
    List (String × Int) × List String :=
  let correlations := corr_series.mergeSort fun a b => a.2 ≤ b.2
  let correlations := correlations.filter fun p => p.1 ≠ target_column
  (correlations,
   correlations.map fun p => if p.2 < 0 then "#FF9999" else "#2E75B6")

/-! ### Style configuration (C8, C10)

`src/exploralytics/visualize/style.py` keeps style settings in a plain Python
dict `DEFAULT_STYLE`.  We embed Python values as the inductive `PyVal`
(floats such as `0.5` and `1.02` are exact decimal literals, embedded as
rationals) and a Python dict as an association list in insertion order. -/

/-- A Python value appearing in a style dictionary. -/
inductive PyVal where
  | int : Int → PyVal
  | float : ℚ → PyVal
  | str : String → PyVal
  | bool : Bool → PyVal
  | dict : List (String × PyVal) → PyVal

/-- `DEFAULT_STYLE` (src/exploralytics/visualize/style.py, lines 15-51),
transcribed key for key in source order. -/
def DEFAULT_STYLE : List (String × PyVal) :=
  [("font_size", .int 12),
   ("font_family", .str "Arial, sans-serif"),
   ("title_size", .int 16),
   ("title_x", .float (1 / 2)),
   ("width", .int 800),
   ("height", .int 600),
   ("margins", .dict
     [("left", .int 50), ("right", .int 50),
      ("top", .int 80), ("bottom", .int 50)]),
   ("color_scale", .str "RdBu"),
   ("background_color", .str "white"),
   ("grid_color", .str "#E5E5E5"),
   ("show_grid", .bool true),
   ("grid_width", .int 1),
   ("show_legend", .bool true),
   ("legend_position", .dict
     [("x", .float (51 / 50)), ("y", .int 1),
      ("xanchor", .str "left"), ("yanchor", .str "top")])]

/-- Python `d = base.copy(); d.update(ov)`: keys already in `base` keep their
position and get the override value; keys only in `ov` are appended in `ov`
order.  Values are replaced wholesale (shallow merge). -/
def dict_update (base ov : List (String × PyVal)) :
    List (String × PyVal) :=
  (base.map fun p =>
    match ov.lookup p.1 with
    | some v => (p.1, v)
    | none => p) ++
  ov.filter fun q => !(base.any fun p => p.1 == q.1)

/-- `create_custom_style(**kwargs)` (src/exploralytics/visualize/style.py,
lines 182-197):

```python
custom_style = DEFAULT_STYLE.copy()
custom_style.update(kwargs)
return custom_style
```
-/
def create_custom_style (kwargs : List (String × PyVal)) :
    List (String × PyVal) :=
  dict_update DEFAULT_STYLE kwargs

/-- The style-selection line of `Visualizer.__init__`
(src/exploralytics/visualize/visualizer.py, line 86):

```python
self.style = style or DEFAULT_STYLE.copy()
```

A Python dict is falsy exactly when it is empty, and `None` is falsy, so
`style or DEFAULT_STYLE.copy()` is the given dict when it is a non-empty
dict, and a copy of `DEFAULT_STYLE` otherwise. -/
def visualizer_init_style (style : Option (List (String × PyVal))) :
    List (String × PyVal) :=
  match style with
  | none => DEFAULT_STYLE
  | some s => if s.isEmpty then DEFAULT_STYLE else s

/-! ### Builder input validation (C4)

The dataframe itself is external (pandas); for validation only its column
dtypes and its row count matter.  `Dtype.object` stands for any
non-numeric pandas dtype (e.g. string columns). -/

/-- The pandas dtypes distinguished by the sources: the two numeric dtypes
named in `plot_histograms` and everything else. -/
inductive Dtype where
  | int64
  | float64
  | object
deriving DecidableEq, Repr

/-- The shape of a pandas dataframe as far as validation is concerned:
named, dtyped columns and a row count. -/
structure DataFrame where
  columns : List (String × Dtype)
  nrows : Nat
deriving Repr

/-- `df[c].dtypes` for a named column (missing columns do not arise in the
claims under study; they default to `object`). -/
def dtypeOf (df : DataFrame) (c : String) : Dtype :=
  (df.columns.lookup c).getD .object

/-- `df.select_dtypes(include=np.number).columns.tolist()`: the names of the
numeric columns, in column order. -/
def select_numeric (df : DataFrame) : List String :=
  (df.columns.filter fun p => p.2 == .int64 || p.2 == .float64).map Prod.fst

/-- The column-selection and row-count phase of the experimental
`Visualizer.plot_histograms` (src/experimental/visualizer.py, lines 85-92):

```python
if len(specific_cols) >= 1:
    numerical_columns = [column for column in specific_cols
                         if df[column].dtypes in ['int64', 'float64']]
else:
    numerical_columns = df.select_dtypes(include=np.number).columns.tolist()
num_rows = identify_num_rows(numerical_columns, desired_num_col=num_cols)
```

The method performs no dataset validation of its own: the only error it can
propagate is the `ZeroDivisionError` inside `identify_num_rows`. -/
def plot_histograms_prepare (df : DataFrame) (specific_cols : List String)
    (num_cols : Int) : Except VizError (List String × Int) :=
  let numerical_columns :=
    if specific_cols.length ≥ 1 then
      specific_cols.filter fun c =>
        dtypeOf df c == .int64 || dtypeOf df c == .float64
    else
      select_numeric df
  match identify_num_rows numerical_columns num_cols with
  | .error e => .error e
  | .ok num_rows => .ok (numerical_columns, num_rows)

/-- Modelled from the spec: `check_data` lives in
`src/exploralytics/visualize/utils.py`, which is absent from the sources
(only its import and call sites are present).  Spec §4.5/§7: every builder
fails with `EmptyDataset` if the dataset has zero rows. -/
def check_data (df : DataFrame) : Except VizError Unit :=
  if df.nrows = 0 then .error .EmptyDataset else .ok ()

/-- Modelled from the spec: the candidate numeric columns considered by
`get_number_columns`, which lives in `src/exploralytics/visualize/utils.py`,
absent from the sources.  Spec §4.5: the builder "selects numeric columns
(explicit list, filtered to numeric dtype, or auto-detected if none
given)". -/
def numeric_candidates (df : DataFrame) (cols : Option (List String)) :
    List String :=
  match cols with
  | none => select_numeric df
  | some cs =>
      cs.filter fun c =>
        dtypeOf df c == .int64 || dtypeOf df c == .float64

/-- Modelled from the spec: `get_number_columns` (absent
`src/exploralytics/visualize/utils.py`) fails with `NoNumericColumns` "if a
numeric-only operation finds no candidate columns" (spec §4.5/§7) and returns
the candidates otherwise. -/
def get_number_columns (df : DataFrame) (cols : Option (List String)) :
    Except VizError (List String) :=
  if (numeric_candidates df cols).isEmpty then .error .NoNumericColumns
  else .ok (numeric_candidates df cols)

/-- The validation phase of the stable-path `Visualizer.plot_distributions`
(src/exploralytics/visualize/visualizer.py, lines 124-126):

```python
check_data(data)
number_cols = get_number_columns(data, columns)
```
-/
def plot_distributions_validate (data : DataFrame)
    (columns : Option (List String)) : Except VizError (List String) := do
  check_data data
  get_number_columns data columns

/-! ### Frame effects of the chart builders (C9)

To state that no builder mutates its input dataset we give the dataset an
explicit value-bearing model and thread it through every pandas call the
builders make, in source order.  Every dataframe operation gets the
state-threading type `DFOp α := DFrame → α × DFrame`: it returns its result
together with the dataframe the caller's variable refers to afterwards.  An
in-place call (e.g. `sort_values(..., inplace=True)`, which none of the
sources uses) would return an altered state; the copying calls the sources
actually make return the input state unchanged and compute their result from
it. -/

/-- A value-bearing dataframe: dtyped columns and rows of integer cells
(cell contents beyond what the operations below read are irrelevant to the
frame-effect claim). -/
structure DFrame where
  cols : List (String × Dtype)
  rows : List (List Int)

/-- A dataframe operation in state-threading form. -/
def DFOp (α : Type) : Type := DFrame → α × DFrame

/-- The values of column `c`, in row order. -/
def getColVals (df : DFrame) (c : String) : List Int :=
  match df.cols.findIdx? fun p => p.1 == c with
  | none => []
  | some i => df.rows.filterMap fun r => r.get? i

/-- Mean of a numeric column (`df[col].mean()`). -/
def colMean (vs : List Int) : ℚ :=
  (vs.sum : ℚ) / (vs.length : ℚ)

/-- Median of a numeric column (`df[col].median()`). -/
def colMedian (vs : List Int) : ℚ :=
  let s := vs.mergeSort fun a b => a ≤ b
  let n := s.length
  if n % 2 = 1 then (((s.get? (n / 2)).getD 0 : Int) : ℚ)
  else ((((s.get? (n / 2 - 1)).getD 0 + (s.get? (n / 2)).getD 0 : Int)) : ℚ) / 2

/-- `df.select_dtypes(include=np.number).columns.tolist()` as a read. -/
def dfop_select_numeric : DFOp (List String) := fun df =>
  ((df.cols.filter fun p => p.2 == .int64 || p.2 == .float64).map Prod.fst,
   df)

/-- `df[c]` as a read. -/
def dfop_getCol (c : String) : DFOp (List Int) := fun df =>
  (getColVals df c, df)

/-- `df[c].mean()` as a read. -/
def dfop_mean (c : String) : DFOp ℚ := fun df =>
  (colMean (getColVals df c), df)

/-- `df[c].median()` as a read. -/
def dfop_median (c : String) : DFOp ℚ := fun df =>
  (colMedian (getColVals df c), df)

/-- `df.corr()` (and `df.corr()[target]`): the correlation computation is
performed by pandas, an external collaborator, so its value is supplied by an
oracle function of the dataframe; the call reads the frame and returns it
unchanged (no `inplace` variant even exists for `corr`). -/
def dfop_corr {α : Type} (corr_fn : DFrame → α) : DFOp α := fun df =>
  (corr_fn df, df)

/-- `df.sort_values(c, ascending=False)` without `inplace=True`: builds a new
sorted frame, leaving the receiver unchanged. -/
def dfop_sort_values_desc (c : String) : DFOp DFrame := fun df =>
  let i := (df.cols.findIdx? fun p => p.1 == c).getD 0
  ({ cols := df.cols,
     rows := df.rows.mergeSort fun r s =>
       (s.get? i).getD 0 ≤ (r.get? i).getD 0 },
   df)

/-- `df[c].value_counts().rename_axis(c).reset_index(name='Count')`: a new
two-column frame of distinct values with their occurrence counts, sorted by
count descending. -/
def dfop_value_counts (c : String) : DFOp DFrame := fun df =>
  let vs := getColVals df c
  let counted := vs.dedup.map fun v => (v, vs.count v)
  ({ cols := [(c, .int64), ("Count", .int64)],
     rows := (counted.mergeSort fun a b => b.2 ≤ a.2).map fun p =>
       [p.1, (p.2 : Int)] },
   df)

/-- `frame.head(n)` on a derived frame (pure: operates on the copy). -/
def frame_head (fr : DFrame) (n : Nat) : DFrame :=
  { cols := fr.cols, rows := fr.rows.take n }

/-- Modelled from the spec: `suggest_bin_count` lives in
`src/exploralytics/visualize/utils.py`, absent from the sources.  Spec §4.3
allows "any standard histogram-binning heuristic ... (e.g., square-root
rule)" returning at least 1 for non-empty input; we take the square-root
rule. -/
def suggest_bin_count (vs : List Int) : Nat :=
  max 1 (Nat.sqrt vs.length)

/-- The dataset-touching steps of the experimental
`Visualizer.plot_histograms` (src/experimental/visualizer.py, lines 85-129):
column selection, then per column a read of `df[col]` and, when requested,
of `df[col].mean()` / `df[col].median()`. -/
def plot_histograms_frame (specific_cols : List String)
    (show_mean show_median : Bool) :
    DFOp (List (String × List Int × Option ℚ × Option ℚ)) := fun df =>
  let (numerical_columns, df) :=
    if specific_cols.length ≥ 1 then
      (specific_cols.filter fun c =>
        dtypeOf' df c == Dtype.int64 || dtypeOf' df c == Dtype.float64, df)
    else
      dfop_select_numeric df
  let (traces, df) := numerical_columns.foldl
    (fun acc col_name =>
      let (done, df) := acc
      let (xs, df) := dfop_getCol col_name df
      let (m, df) :=
        if show_mean then
          let (v, df) := dfop_mean col_name df
          (some v, df)
        else (none, df)
      let (md, df) :=
        if show_median then
          let (v, df) := dfop_median col_name df
          (some v, df)
        else (none, df)
      (done ++ [(col_name, xs, m, md)], df))
    ([], df)
  (traces, df)
where
  /-- `df[c].dtypes` on the value-bearing frame. -/
  dtypeOf' (df : DFrame) (c : String) : Dtype :=
    (df.cols.lookup c).getD .object

/-- The dataset-touching steps of the experimental
`Visualizer.plot_correlation_map` (src/experimental/visualizer.py, lines
171-198): the single read `df.corr()`, followed by pure processing of its
result (rounding, masking, hover text). -/
def plot_correlation_map_frame
    (corr_fn : DFrame → List (List (Option Int))) (names : List String) :
    DFOp (List (List String)) := fun df =>
  let (corr, df) := dfop_corr corr_fn df
  (heatmap_hovertext names corr, df)

/-- The dataset-touching steps of the experimental
`Visualizer.plot_correlation_with_target` (src/experimental/visualizer.py,
lines 264-271): the single read `df.corr()[target_column]`, followed by pure
sorting/dropping/coloring of its result. -/
def plot_correlation_with_target_frame
    (corr_series_fn : DFrame → List (String × Int)) (target_column : String) :
    DFOp (List (String × Int) × List String) := fun df =>
  let (series, df) := dfop_corr corr_series_fn df
  (plot_correlation_with_target target_column series, df)

/-- The dataset-touching steps of the experimental `Visualizer.plot_hbar`
(src/experimental/visualizer.py, lines 356-417): either a value-count of
`x_col` or a descending sort by `y_col`, optional `head(top_n)` truncation on
the derived frame, and an optional mean of the plotted values (all on the
derived `plot_data`, never on `df`). -/
def plot_hbar_frame (x_col : String) (y_col : Option String)
    (top_n : Option Nat) (add_hline : Bool) : DFOp (DFrame × Option ℚ) :=
  fun df =>
  match y_col with
  | none =>
      let (value_counts, df) := dfop_value_counts x_col df
      let plot_data :=
        match top_n with
        | some n => frame_head value_counts n
        | none => value_counts
      let mean_value :=
        if add_hline then some (colMean (getColVals plot_data "Count"))
        else none
      ((plot_data, mean_value), df)
  | some y =>
      let (sorted, df) := dfop_sort_values_desc y df
      let plot_data :=
        match top_n with
        | some n => frame_head sorted n
        | none => sorted
      let mean_value :=
        if add_hline then some (colMean (getColVals plot_data y))
        else none
      ((plot_data, mean_value), df)

/-- The dataset-touching steps of the stable-path
`Visualizer.plot_distributions` (src/exploralytics/visualize/visualizer.py,
lines 124-177): validation reads, then per numeric column the reads
`data[col].dropna()` (the identity on the integer-cell model, where no cell
is missing), `suggest_bin_count(data[col])` and the two trace reads of
`data[col]`. -/
def plot_distributions_frame (columns : Option (List String)) :
    DFOp (Except VizError (List (String × List Int × Nat))) := fun df =>
  let nrows := df.rows.length
  if nrows = 0 then (.error .EmptyDataset, df)
  else
    let (number_cols, df) :=
      match columns with
      | none => dfop_select_numeric df
      | some cs =>
          (cs.filter fun c =>
            (df.cols.lookup c).getD .object == Dtype.int64 ||
              (df.cols.lookup c).getD .object == Dtype.float64, df)
    if number_cols.isEmpty then (.error .NoNumericColumns, df)
    else
      let (traces, df) := number_cols.foldl
        (fun acc col_name =>
          let (done, df) := acc
          let (xs, df) := dfop_getCol col_name df
          (done ++ [(col_name, xs, suggest_bin_count xs)], df))
        ([], df)
      (.ok traces, df)

end Exploralytics

namespace Exploralytics

/-! ## Theorems -/

/-- C1: for every `item_count ≥ 0` (any list of items) and every
`desired_columns ≥ 1`, `identify_num_rows` returns
`rows = ceil(item_count / desired_columns)`: `rows * desired_columns` covers
all items and `(rows - 1) * desired_columns` does not, so `rows` is the
minimal such integer; the computation uses integer division with a remainder
check, no floating point. -/
theorem identify_num_rows_ceil (columns : List String) (d : Int)
    (hd : 1 ≤ d) :
    ∃ rows : Int, identify_num_rows columns d = .ok rows ∧
      (columns.length : Int) ≤ rows * d ∧
      (rows - 1) * d < (columns.length : Int) := by
  have hd0 : d ≠ 0 := by omega
  set n : Int := (columns.length : Int) with hn
  have hfd : n.fdiv d = n / d := Int.fdiv_eq_ediv n (by omega)
  have hfm : n.fmod d = n % d := Int.fmod_eq_emod n (by omega)
  have hdm : d * (n / d) + n % d = n := Int.ediv_add_emod n d
  have hm0 : 0 ≤ n % d := Int.emod_nonneg n hd0
  have hmd : n % d < d := Int.emod_lt_of_pos n (by omega)
  have hq : (n / d) * d = d * (n / d) := mul_comm _ _
  unfold identify_num_rows
  rw [if_neg hd0]
  by_cases h : n.fmod d = 0
  · rw [if_pos h]
    rw [hfm] at h
    refine ⟨n / d, by rw [hfd], ?_, ?_⟩
    · nlinarith
    · nlinarith
  · rw [if_neg h]
    rw [hfm] at h
    refine ⟨n / d + 1, by rw [hfd], ?_, ?_⟩
    · nlinarith
    · have h1 : 0 < n % d := lt_of_le_of_ne hm0 (Ne.symm h)
      nlinarith

/-- Witness for C1 at `item_count = 5`, `desired_columns = 2`. -/
theorem identify_num_rows_ceil_witness :
    ∃ rows : Int,
      identify_num_rows ["a", "b", "c", "d", "e"] 2 = .ok rows ∧
      ((["a", "b", "c", "d", "e"] : List String).length : Int) ≤ rows * 2 ∧
      (rows - 1) * 2 < ((["a", "b", "c", "d", "e"] : List String).length : Int) :=
  identify_num_rows_ceil ["a", "b", "c", "d", "e"] 2 (by norm_num)

/-- C5 counterexample: at `desired_columns = -2 ≤ 0` the function does not
fail with `InvalidArgument` (nor with any error): it returns `-2`. -/
theorem identify_num_rows_negative_cols_no_error :
    identify_num_rows ["a", "b", "c", "d", "e"] (-2) = .ok (-2) := rfl

/-- C5 (amended): `identify_num_rows` performs no argument validation; the
only failing input is `desired_columns = 0`, where Python integer division
raises `ZeroDivisionError` (not `InvalidArgument`); for every other
`desired_columns`, negative included, it returns a value. -/
theorem identify_num_rows_error_behavior (columns : List String) (d : Int) :
    (d = 0 → identify_num_rows columns d = .error .ZeroDivisionError) ∧
    (d ≠ 0 → ∃ r : Int, identify_num_rows columns d = .ok r) := by
  constructor
  · intro h
    simp [identify_num_rows, h]
  · intro h
    unfold identify_num_rows
    rw [if_neg h]
    split <;> exact ⟨_, rfl⟩

/-- Witness for C5's amended statement at `desired_columns = 0`. -/
theorem identify_num_rows_error_behavior_witness :
    identify_num_rows ["a"] 0 = .error .ZeroDivisionError :=
  (identify_num_rows_error_behavior ["a"] 0).1 rfl

end Exploralytics

namespace Exploralytics

/-- Helper: pointwise description of `highlight_bars_colors`.  Provided the
low-highlight count (when a low spec is present) is at least 1, the result
has exactly `data_length` slots and slot `i` carries the color the spec's
`assign_colors` contract prescribes. -/
theorem highlight_pointwise (ht hl : Option (Nat × String)) (len : Nat)
    (hlow : ∀ p ∈ hl, 1 ≤ p.1) :
    (highlight_bars_colors ht hl len).length = len ∧
    ∀ i, i < len → (highlight_bars_colors ht hl len)[i]? =
      some (assign_colors_spec "#E5E4E2" ht hl len i) := by
  obtain _ | ⟨nt, ct⟩ := ht <;> obtain _ | ⟨nl, cl⟩ := hl
  · -- no highlights
    refine ⟨by simp [highlight_bars_colors], ?_⟩
    intro i hi
    simp [highlight_bars_colors, assign_colors_spec, top_color_spec,
      List.getElem?_replicate, hi]
  · -- low only
    have hnl : 1 ≤ nl := hlow (nl, cl) rfl
    have hne : ¬ (nl = 0) := by omega
    constructor
    · simp [highlight_bars_colors, hne]
      omega
    · intro i hi
      simp only [highlight_bars_colors, hne, if_false, List.length_replicate]
      rw [List.getElem?_append]
      simp only [List.length_take, List.length_replicate,
        List.getElem?_take, List.getElem?_replicate,
        assign_colors_spec, top_color_spec]
      split_ifs <;> first | rfl | omega
  · -- top only
    constructor
    · simp [highlight_bars_colors, List.drop_replicate]
      omega
    · intro i hi
      simp only [highlight_bars_colors, List.drop_replicate]
      rw [List.getElem?_append]
      simp only [List.length_replicate, List.getElem?_replicate,
        assign_colors_spec, top_color_spec]
      split_ifs <;> first | rfl | omega
  · -- top and low
    have hnl : 1 ≤ nl := hlow (nl, cl) rfl
    have hne : ¬ (nl = 0) := by omega
    constructor
    · simp [highlight_bars_colors, hne, List.drop_replicate]
      omega
    · intro i hi
      simp only [highlight_bars_colors, hne, if_false, List.drop_replicate,
        List.length_append, List.length_replicate]
      rw [List.getElem?_append]
      simp only [List.length_take, List.length_append, List.length_replicate,
        List.getElem?_take, List.getElem?_replicate,
        assign_colors_spec, top_color_spec]
      rw [List.getElem?_append]
      simp only [List.length_replicate, List.getElem?_replicate]
      split_ifs <;> first | rfl | omega

end Exploralytics

namespace Exploralytics

/-- C2 counterexample: with a low-highlight spec whose count is `n = 0`
(allowed by the claim, which quantifies over counts `n ≥ 0`) the function
does not return `length` colors: Python's `colors[-0:]` slice is the whole
list, so `highlight_bars_colors(None, (0, "blue"), 3)` returns the empty
list instead of a 3-color sequence. -/
theorem highlight_bars_colors_zero_low_counterexample :
    (highlight_bars_colors none (some (0, "blue")) 3).length ≠ 3 := by decide

/-- C2 (amended): with the function's fixed base color `"#E5E4E2"` (the
Python source hardcodes the base rather than taking it as a parameter), for
every length, every top spec with count `n ≥ 0` and every low spec with
count `n ≥ 1` (a low count of 0 instead empties the result via the
`colors[-0:]` slice), `highlight_bars_colors` returns exactly `length`
colors, with slots `[0, min(n_top, length))` holding the top color, slots
`[length - n_low, length)` (start clamped at 0) holding the low color, and
every remaining slot the base color. -/
theorem highlight_bars_colors_assigns (ht hl : Option (Nat × String))
    (len : Nat) (hlow : ∀ p ∈ hl, 1 ≤ p.1) :
    (highlight_bars_colors ht hl len).length = len ∧
    ∀ i, i < len → (highlight_bars_colors ht hl len)[i]? =
      some (assign_colors_spec "#E5E4E2" ht hl len i) :=
  highlight_pointwise ht hl len hlow

/-- Witness for C2's amended statement: `length = 10`,
`highlight_top = (3, "red")`, `highlight_low = (2, "blue")`. -/
theorem highlight_bars_colors_assigns_witness :
    (highlight_bars_colors (some (3, "red")) (some (2, "blue")) 10).length
      = 10 ∧
    ∀ i, i < 10 →
      (highlight_bars_colors (some (3, "red")) (some (2, "blue")) 10)[i]? =
        some (assign_colors_spec "#E5E4E2" (some (3, "red"))
          (some (2, "blue")) 10 i) :=
  highlight_bars_colors_assigns (some (3, "red")) (some (2, "blue")) 10
    (by intro p hp; cases hp; decide)

/-- C3: when both highlight specs are present and their ranges overlap
(`n_top + n_low > length`), the top highlight is written first and the
bottom highlight second, so every index in the overlap
`[length - n_low, min(n_top, length))` ends up with the bottom color
(last-write-wins); in particular for `length = 10`,
`highlight_top = (8, "red")`, `highlight_low = (5, "blue")`, entries 5-9 are
blue and entries 0-4 are red. -/
theorem highlight_overlap_last_write_wins :
    (∀ nt ct nl cl len i, len < nt + nl → len - nl ≤ i → i < min nt len →
      (highlight_bars_colors (some (nt, ct)) (some (nl, cl)) len)[i]? =
        some cl) ∧
    highlight_bars_colors (some (8, "red")) (some (5, "blue")) 10 =
      ["red", "red", "red", "red", "red",
       "blue", "blue", "blue", "blue", "blue"] := by
  constructor
  · intro nt ct nl cl len i hov hlo hhi
    rcases Nat.eq_zero_or_pos nl with h0 | h1
    · exact absurd hhi (by omega)
    · have hpt := (highlight_pointwise (some (nt, ct)) (some (nl, cl)) len
        (by intro p hp; cases hp; simpa using h1)).2 i (by omega)
      rw [hpt]
      simp [assign_colors_spec, hlo]
  · decide

/-- Witness for C3 at the claim's own instance: index 6 of the overlap for
`length = 10`, `highlight_top = (8, "red")`, `highlight_low = (5, "blue")`. -/
theorem highlight_overlap_last_write_wins_witness :
    (highlight_bars_colors (some (8, "red")) (some (5, "blue")) 10)[6]? =
      some "blue" :=
  highlight_overlap_last_write_wins.1 8 "red" 5 "blue" 10 6 (by decide)
    (by decide) (by decide)

end Exploralytics

namespace Exploralytics

/-- C4 counterexample: the experimental histogram-grid builder
(`plot_histograms`, src/experimental/visualizer.py) called with no explicit
column list on a zero-row dataset whose only column is a string column
raises neither `EmptyDataset` nor `NoNumericColumns`: its data phase
succeeds with an empty column selection and zero rows of subplots. -/
theorem plot_histograms_no_validation_counterexample :
    plot_histograms_prepare ⟨[("name", .object)], 0⟩ [] 1 = .ok ([], 0) :=
  rfl

/-- C4 (amended): the stable-path builder (`plot_distributions`) fails with
`EmptyDataset` on a zero-row dataset and, on a non-empty dataset, fails with
`NoNumericColumns` exactly when the candidate numeric-column set is empty
(in particular on an all-string dataset with no explicit column list);
the experimental builders perform no such validation: for any dataset the
experimental histogram builder's data phase returns without raising either
error whenever the grid-column count is non-zero. -/
theorem builders_validation (df : DataFrame) (cols : Option (List String))
    (sc : List String) (nc : Int) :
    (df.nrows = 0 →
      plot_distributions_validate df cols = .error .EmptyDataset) ∧
    (df.nrows ≠ 0 →
      (plot_distributions_validate df cols = .error .NoNumericColumns ↔
        numeric_candidates df cols = [])) ∧
    (nc ≠ 0 → ∃ v, plot_histograms_prepare df sc nc = .ok v) := by
  refine ⟨?_, ?_, ?_⟩
  · intro h
    simp [plot_distributions_validate, check_data, h, Bind.bind, Except.bind]
  · intro h
    have hc : check_data df = .ok () := by simp [check_data, h]
    simp only [plot_distributions_validate, hc, get_number_columns,
      Bind.bind, Except.bind]
    by_cases he : numeric_candidates df cols = []
    · simp [he]
    · simp [he, List.isEmpty_iff]
  · intro h
    have hnz : ∀ l : List String, ∃ r, identify_num_rows l nc = .ok r := by
      intro l
      unfold identify_num_rows
      rw [if_neg h]
      split <;> exact ⟨_, rfl⟩
    unfold plot_histograms_prepare
    split <;>
      · dsimp only
        obtain ⟨r, hr⟩ := hnz _
        rw [hr]
        exact ⟨_, rfl⟩

/-- Witness for C4's amended statement: the empty all-string dataset makes
the stable-path builder fail with `EmptyDataset`. -/
theorem builders_validation_witness :
    plot_distributions_validate ⟨[("name", .object)], 0⟩ none =
      .error .EmptyDataset :=
  (builders_validation ⟨[("name", .object)], 0⟩ none [] 1).1 rfl

/-- C10: the stable-path `Visualizer.__init__` stores a fresh copy of
`DEFAULT_STYLE` when the `style` argument is `None` or any falsy value (in
particular an explicitly passed empty style dict is silently replaced by the
defaults), and stores a non-empty style mapping as given. -/
theorem visualizer_init_style_defaults :
    visualizer_init_style none = DEFAULT_STYLE ∧
    visualizer_init_style (some []) = DEFAULT_STYLE ∧
    ∀ s, s ≠ [] → visualizer_init_style (some s) = s := by
  refine ⟨rfl, rfl, ?_⟩
  intro s hs
  simp [visualizer_init_style, List.isEmpty_iff, hs]

/-- Witness for C10's quantified part at a concrete non-empty style. -/
theorem visualizer_init_style_defaults_witness :
    visualizer_init_style (some [("width", .int 100)]) =
      [("width", .int 100)] :=
  visualizer_init_style_defaults.2.2 [("width", .int 100)] (by simp)

end Exploralytics

namespace Exploralytics

/-- Helper: `lookup` distributes over append. -/
theorem lookup_append (A B : List (String × PyVal)) (k : String) :
    (A ++ B).lookup k = (A.lookup k).or (B.lookup k) := by
  induction A with
  | nil => simp
  | cons p rest ih =>
      obtain ⟨pk, pv⟩ := p
      cases hq : k == pk <;> simp [List.lookup_cons, hq, ih]

/-- Helper: a key absent from a list is absent from any filtering of it. -/
theorem lookup_filter_none {c : String × PyVal → Bool}
    (ov : List (String × PyVal)) (k : String) (h : ov.lookup k = none) :
    (ov.filter c).lookup k = none := by
  induction ov with
  | nil => simp
  | cons q rest ih =>
      obtain ⟨qk, qv⟩ := q
      rw [List.lookup_cons] at h
      cases hq : (k == qk)
      · rw [hq] at h
        by_cases hc : c (qk, qv)
        · simp [List.filter_cons, hc, List.lookup_cons, hq, ih h]
        · simp [List.filter_cons, hc, ih h]
      · rw [hq] at h
        cases h

/-- Helper: the mapped (value-replacement) part of `dict_update` leaves a
key untouched when the override set does not mention it. -/
theorem lookup_map_update (base ov : List (String × PyVal)) (k : String)
    (hov : ov.lookup k = none) :
    (base.map fun p =>
      match ov.lookup p.1 with
      | some w => (p.1, w)
      | none => p).lookup k = base.lookup k := by
  induction base with
  | nil => simp
  | cons p rest ih =>
      obtain ⟨pk, pv⟩ := p
      simp only [List.map_cons]
      cases hw : ov.lookup pk with
      | none =>
          simp only [hw]
          cases hq : (k == pk) <;> simp [List.lookup_cons, hq, ih]
      | some w =>
          simp only [hw]
          cases hq : (k == pk)
          · simp [List.lookup_cons, hq, ih]
          · have hkpk : k = pk := by simpa using hq
            rw [hkpk] at hov
            rw [hov] at hw
            cases hw

/-- Helper: `dict_update` leaves every non-overridden key's value
unchanged. -/
theorem lookup_dict_update_not_overridden (base ov : List (String × PyVal))
    (k : String) (hov : ov.lookup k = none) :
    (dict_update base ov).lookup k = base.lookup k := by
  unfold dict_update
  rw [lookup_append, lookup_map_update base ov k hov,
    lookup_filter_none ov k hov]
  cases base.lookup k <;> rfl

/-- C8: style resolution is a shallow key-wise merge: updating any base with
an empty override set returns the base unchanged; overriding the single key
`font_size` in `create_custom_style` changes that key to the override value
and leaves every other key — including the nested composite `margins` dict,
retained wholesale — at its base value. -/
theorem create_custom_style_shallow_merge :
    (∀ base : List (String × PyVal), dict_update base [] = base) ∧
    (∀ (v : PyVal) (k : String), k ≠ "font_size" →
      (create_custom_style [("font_size", v)]).lookup k =
        DEFAULT_STYLE.lookup k) ∧
    (create_custom_style [("font_size", .int 20)]).lookup "font_size" =
      some (.int 20) ∧
    (create_custom_style [("font_size", .int 20)]).lookup "margins" =
      some (.dict [("left", .int 50), ("right", .int 50), ("top", .int 80),
        ("bottom", .int 50)]) := by
  refine ⟨?_, ?_, rfl, rfl⟩
  · intro base
    simp [dict_update]
  · intro v k hk
    apply lookup_dict_update_not_overridden
    have : (k == "font_size") = false := by simpa using hk
    simp [List.lookup_cons, this]

/-- Witness for C8 at `base = DEFAULT_STYLE`, override `font_size := 20`,
probe key `"height"`. -/
theorem create_custom_style_shallow_merge_witness :
    dict_update DEFAULT_STYLE [] = DEFAULT_STYLE ∧
    (create_custom_style [("font_size", .int 20)]).lookup "height" =
      DEFAULT_STYLE.lookup "height" :=
  ⟨create_custom_style_shallow_merge.1 DEFAULT_STYLE,
   create_custom_style_shallow_merge.2.1 (.int 20) "height" (by simp)⟩

end Exploralytics

namespace Exploralytics

/-- C6: in the correlation heatmap, every cell on or above the diagonal (in
input column order) has empty hover text; every cell strictly below the
diagonal whose correlation value is defined shows the pairwise correlation
of its two columns formatted to 2 decimal places, naming both columns; in
particular for columns `A, B` with `corr(A, B) = 1.0`, the cell `(A, B)`
above the diagonal is empty and the cell `(B, A)` below it shows `"1.00"`. -/
theorem heatmap_upper_triangle_masked (names : List String)
    (m : List (List (Option Int))) (i j : Nat) (col1 col2 : String)
    (row : List (Option Int)) (a : Option Int)
    (h1 : names[i]? = some col1) (h2 : names[j]? = some col2)
    (hrow : m[i]? = some row) (ha : row[j]? = some a) :
    (i ≤ j →
      ((heatmap_hovertext names m)[i]?.bind fun r => r[j]?) = some "") ∧
    (∀ v : Int, j < i → a = some v →
      ((heatmap_hovertext names m)[i]?.bind fun r => r[j]?) =
        some (col1 ++ " vs " ++ col2 ++ "<br>Correlation: " ++ fmt2 v)) ∧
    heatmap_hovertext ["A", "B"]
        [[some 100, some 100], [some 100, some 100]] =
      [["", ""], ["B vs A<br>Correlation: 1.00", ""]] := by
  have hmask : (mask_upper m)[i]? =
      some (row.enum.map fun q => if i ≤ q.1 then none else q.2) := by
    simp [mask_upper, List.getElem?_map, List.getElem?_enum, hrow]
  have hz1 : (names.zip (mask_upper m))[i]? =
      some (col1, row.enum.map fun q => if i ≤ q.1 then none else q.2) :=
    List.getElem?_zip_eq_some.mpr ⟨h1, hmask⟩
  have houter : (heatmap_hovertext names m)[i]? =
      some ((names.zip (row.enum.map fun q => if i ≤ q.1 then none else q.2)).map
        fun c =>
          match c.2 with
          | none => ""
          | some v => col1 ++ " vs " ++ c.1 ++ "<br>Correlation: " ++ fmt2 v) := by
    simp only [heatmap_hovertext, List.getElem?_map, hz1, Option.map_some']
  have hinner : (row.enum.map fun q => if i ≤ q.1 then none else q.2)[j]? =
      some (if i ≤ j then none else a) := by
    simp [List.getElem?_map, List.getElem?_enum, ha]
  have hz2 : (names.zip
      (row.enum.map fun q => if i ≤ q.1 then none else q.2))[j]? =
      some (col2, if i ≤ j then none else a) :=
    List.getElem?_zip_eq_some.mpr ⟨h2, hinner⟩
  refine ⟨?_, ?_, by decide⟩
  · intro hij
    simp [houter, List.getElem?_map, hz2, hij]
  · intro v hji hv
    have : ¬ (i ≤ j) := by omega
    simp [houter, List.getElem?_map, hz2, this, hv]

/-- Witness for C6 at the claim's own two-column instance: both the masked
cell `(A, B)` (indices `(0, 1)`) and the shown cell `(B, A)` (indices
`(1, 0)`). -/
theorem heatmap_upper_triangle_masked_witness :
    ((heatmap_hovertext ["A", "B"]
        [[some 100, some 100], [some 100, some 100]])[0]?.bind
      fun r => r[1]?) = some "" ∧
    ((heatmap_hovertext ["A", "B"]
        [[some 100, some 100], [some 100, some 100]])[1]?.bind
      fun r => r[0]?) =
      some ("B" ++ " vs " ++ "A" ++ "<br>Correlation: " ++ fmt2 100) :=
  ⟨(heatmap_upper_triangle_masked ["A", "B"]
      [[some 100, some 100], [some 100, some 100]] 0 1 "A" "B"
      [some 100, some 100] (some 100) rfl rfl rfl rfl).1 (by decide),
   (heatmap_upper_triangle_masked ["A", "B"]
      [[some 100, some 100], [some 100, some 100]] 1 0 "B" "A"
      [some 100, some 100] (some 100) rfl rfl rfl rfl).2.1 100 (by decide)
      rfl⟩

end Exploralytics

namespace Exploralytics

/-- C7: in the target-correlation bar chart, the target column never appears
among the bar labels; the labels are exactly the other columns of the
correlation series (as a multiset), ordered by ascending correlation with
the target; and each bar's color is `"#FF9999"` when its correlation is
negative and `"#2E75B6"` when it is non-negative. -/
theorem plot_correlation_with_target_bars (target_column : String)
    (corr_series : List (String × Int)) :
    (∀ p ∈ (plot_correlation_with_target target_column corr_series).1,
      p.1 ≠ target_column) ∧
    ((plot_correlation_with_target target_column corr_series).1.map
        Prod.fst).Perm
      ((corr_series.filter fun p => p.1 ≠ target_column).map Prod.fst) ∧
    (plot_correlation_with_target target_column corr_series).1.Pairwise
      (fun a b => a.2 ≤ b.2) ∧
    ∀ (i : Nat) (p : String × Int),
      (plot_correlation_with_target target_column corr_series).1[i]? =
        some p →
      (plot_correlation_with_target target_column corr_series).2[i]? =
        some (if p.2 < 0 then "#FF9999" else "#2E75B6") := by
  simp only [plot_correlation_with_target]
  refine ⟨?_, ?_, ?_, ?_⟩
  · intro p hp
    have := List.of_mem_filter hp
    simpa using this
  · exact ((List.mergeSort_perm corr_series fun a b => a.2 ≤ b.2).filter
      _).map _
  · have hsorted := @List.sorted_mergeSort (String × Int)
      (fun a b => decide (a.2 ≤ b.2))
      (by intro a b c hab hbc; simp at *; omega)
      (by intro a b; simpa using le_total a.2 b.2)
      corr_series
    have hsub : (List.filter (fun p => decide (p.1 ≠ target_column))
        (corr_series.mergeSort fun a b => decide (a.2 ≤ b.2))).Sublist
        (corr_series.mergeSort fun a b => decide (a.2 ≤ b.2)) :=
      List.filter_sublist _
    exact (List.Pairwise.sublist hsub hsorted).imp
      (by intro a b hab; simpa using hab)
  · intro i p hp
    rw [List.getElem?_map, hp]
    rfl

unseal List.merge List.mergeSort in
/-- Witness for C7 at the concrete series
`[("a", 0.30), ("t", 1.00), ("b", -0.20)]` with target `"t"`: the bar at
index 0 is `("b", -0.20)`, its label differs from the target and its color
is the negative-correlation color. -/
theorem plot_correlation_with_target_bars_witness :
    (("b", (-20 : Int)).1 ≠ "t") ∧
    (plot_correlation_with_target "t"
        [("a", 30), ("t", 100), ("b", -20)]).2[0]? =
      some (if ((("b", (-20 : Int))).2 < 0) then "#FF9999" else "#2E75B6") :=
  ⟨(plot_correlation_with_target_bars "t"
      [("a", 30), ("t", 100), ("b", -20)]).1 ("b", -20) (by decide),
   (plot_correlation_with_target_bars "t"
      [("a", 30), ("t", 100), ("b", -20)]).2.2.2 0 ("b", -20) (by decide)⟩

end Exploralytics

namespace Exploralytics

/-- Helper: a fold whose step never changes the threaded dataframe leaves
the dataframe component of the accumulator untouched. -/
theorem foldl_snd_eq {α β : Type} (f : α × DFrame → β → α × DFrame)
    (hf : ∀ a c, (f a c).2 = a.2) (l : List β) (init : α × DFrame) :
    (l.foldl f init).2 = init.2 := by
  induction l generalizing init with
  | nil => rfl
  | cons c cs ih => rw [List.foldl_cons, ih, hf]

/-- C9: no chart builder mutates its input dataset: for each of the five
builders (histogram grid, correlation heatmap, target-correlation bars,
horizontal bars, distribution panel), threading the dataframe through every
dataset operation the builder performs, in source order, returns the
dataframe unchanged — all sorting, truncation, correlation and value-count
steps operate on derived copies. -/
theorem builders_do_not_mutate (df : DFrame) (specific_cols : List String)
    (show_mean show_median : Bool)
    (corr_fn : DFrame → List (List (Option Int))) (names : List String)
    (corr_series_fn : DFrame → List (String × Int)) (target_column : String)
    (x_col : String) (y_col : Option String) (top_n : Option Nat)
    (add_hline : Bool) (columns : Option (List String)) :
    (plot_histograms_frame specific_cols show_mean show_median df).2 = df ∧
    (plot_correlation_map_frame corr_fn names df).2 = df ∧
    (plot_correlation_with_target_frame corr_series_fn target_column df).2 =
      df ∧
    (plot_hbar_frame x_col y_col top_n add_hline df).2 = df ∧
    (plot_distributions_frame columns df).2 = df := by
  refine ⟨?_, rfl, rfl, ?_, ?_⟩
  · unfold plot_histograms_frame
    by_cases hsc : specific_cols.length ≥ 1 <;>
      simp only [hsc, if_true, if_false, reduceIte] <;>
      · apply foldl_snd_eq
        intro a c
        obtain ⟨a1, a2⟩ := a
        cases show_mean <;> cases show_median <;> rfl
  · cases y_col <;> cases top_n <;> rfl
  · unfold plot_distributions_frame
    by_cases h0 : df.rows.length = 0
    · simp only [h0, if_true, reduceIte]
    · simp only [h0, if_false, reduceIte]
      cases columns <;>
        · dsimp only
          split
          · rfl
          · apply foldl_snd_eq
            intro a c
            obtain ⟨a1, a2⟩ := a
            rfl

end Exploralytics
